import Mathlib

/-!
A verification development for the distance engine of the deepdiff
repository (file deepdiff/distance.py). Python values are shallowly
embedded: numbers as rationals, container structure as an explicit heap of
nodes addressed by object identity, fallible code as Except, and the numpy
batch operations elementwise over lists. Each definition is translated
from the source; the external collaborators (the diff engine producing the
structural report, and the DeepHash length cache) appear as explicit data
of the session structure.
-/

/-- Keys of Python mappings as far as distance.py inspects them: string
keys (checked against the reserved and internal key names) and integer
keys (positions inside the index sections of a report). -/
inductive PyKey where
  | s (str : String)
  | n (int : Int)
deriving DecidableEq, Repr

/-- A node of the Python object graph traversed by the size counter
of distance.py. Children are referenced by object identity (a natural
number, playing the role of the CPython id). The constructors follow the
isinstance chain of the source: Mapping, numbers, strings, Iterable, type,
and the fallback branch over an object with a dict of attribute names. -/
inductive PyObj where
  | num (q : ℚ)
  | str (s : String)
  | mapping (entries : List (PyKey × Nat))
  | iter (elems : List Nat)
  | cls
  | obj (attrs : List String)
deriving DecidableEq, Repr

/-- Dereference an object identity in the heap. Identities outside the
heap denote no Python object; they resolve to an inert atomic node, and
well-formed inputs never contain them. -/
def heapGet (heap : List PyObj) (i : Nat) : PyObj :=
  heap.getD i (PyObj.num 0)

/-- Test for `key.startswith` applied to the one-character internal
marker prefix: the first character of the string is an underscore. -/
def startsWithUnderscore (s : String) : Bool :=
  match s.data with
  | [] => false
  | c :: _ => c == '_'

/-- The key filter of the source: a textual key beginning with an
underscore, or equal to one of the two reserved diagnostic names, does not
count towards the distance. Non-string keys are never filtered. -/
def keySkip : PyKey → Bool
  | PyKey.s s => startsWithUnderscore s || s == "deep_distance" || s == "new_path"
  | PyKey.n _ => false

/-- The two report keys whose position-to-item sections are deduplicated
by item identity before they are counted. -/
def isSpecialKey : PyKey → Bool
  | PyKey.s s => s == "iterable_items_added_at_indexes" || s == "iterable_items_removed_at_indexes"
  | PyKey.n _ => false

/-- The dedup loop of the source: walk the position-to-item entries in
order, keeping only the first entry per distinct item identity. The first
argument accumulates the identities already used. -/
def dedupById (seen : List Nat) : List (PyKey × Nat) → List (PyKey × Nat)
  | [] => []
  | e :: rest =>
    if e.2 ∈ seen then dedupById seen rest
    else e :: dedupById (e.2 :: seen) rest

/-- Contribution of one child value: a child whose identity is already in
the visited set of the current branch contributes 0, otherwise the counter
recurses with the visited set extended by the identity of the child. The
guard of the source reads `parents_ids and item_id in parents_ids`, which
is equivalent to plain membership; the frozenset is modelled by the
duplicate-free list of visited identities. -/
def childContribution (rec : Nat → List Nat → Nat) (P : List Nat) (v : Nat) : Nat :=
  if v ∈ P then 0 else rec v (v :: P)

/-- Counting of one position-to-item section after deduplication. The
source materializes the deduplicated section as a fresh dict and recurses
into it; the id of that fresh dict is new, so it can never occur in the
visited set nor collide with the identity of a later value, and the
recursion is therefore inlined here structurally. A non-mapping section
makes the source raise while building the fresh dict; the model leaves it
at 0, and well-formed reports never contain one. -/
def specialInner (rec : Nat → List Nat → Nat) (P : List Nat) : PyObj → Nat
  | PyObj.mapping kvs =>
      ((dedupById [] kvs).map (fun e =>
        if keySkip e.1 then 0 else childContribution rec P e.2)).sum
  | _ => 0

/-- Counting of the value under one of the two special report keys: a
mapping from paths to position-to-item sections. The path keys run through
the same key filter when the fresh deduplicated copy is recursed into. -/
def specialStep (heap : List PyObj) (rec : Nat → List Nat → Nat) (P : List Nat) : PyObj → Nat
  | PyObj.mapping paths =>
      (paths.map (fun pe =>
        if keySkip pe.1 then 0
        else specialInner rec P (heapGet heap pe.2))).sum
  | _ => 0

/-- One unfolding of the size counter over a dereferenced node, with the
recursive occurrence abstracted as `rec`. Mirrors the branch order of the
source: Mapping (with the special-key dedup first, then the key filter,
then the identity guard), numbers, strings, Iterable, type, and the
fallback over attribute names. In the fallback the source recurses into
each attribute name, a string, which always counts 1, so the branch
contributes the number of attributes. -/
def nodeStep (heap : List PyObj) (rec : Nat → List Nat → Nat) (P : List Nat) : PyObj → Nat
  | PyObj.mapping entries =>
      (entries.map (fun kv =>
        if isSpecialKey kv.1 then specialStep heap rec P (heapGet heap kv.2)
        else if keySkip kv.1 then 0
        else childContribution rec P kv.2)).sum
  | PyObj.num _ => 1
  | PyObj.str _ => 1
  | PyObj.iter elems => (elems.map (childContribution rec P)).sum
  | PyObj.cls => 1
  | PyObj.obj attrs => attrs.length

/-- The size counter `_get_item_length` of the source, indexed by fuel so
that the definition is total; the fuel is shown elsewhere to be irrelevant
once it exceeds the number of identities of the heap plus one, which is
the formal statement that the guarded recursion of the source terminates
on every object graph, cyclic ones included. -/
def getItemLengthF (heap : List PyObj) : Nat → Nat → List Nat → Nat
  | 0 => fun _ _ => 0
  | fuel + 1 => fun i P => nodeStep heap (getItemLengthF heap fuel) P (heapGet heap i)

/-- The size of the value rooted at identity `i`, with the empty visited
set of the top-level call of the source. -/
def get_item_length (heap : List PyObj) (i : Nat) : Nat :=
  getItemLengthF heap (heap.length + 2) i []

/-- Number of identities of the heap not yet visited; the decreasing
measure of the guarded recursion. -/
def unseen (heap : List PyObj) (P : List Nat) : Nat :=
  ((Finset.range heap.length).filter (fun x => x ∉ P)).card

/-- The scalar number distance `_get_numbers_distance` of the source,
over exact rationals: 0 for equal operands, the ceiling when the divisor
`(num1 + num2) / max_` vanishes, and otherwise the absolute value of the
difference divided by the divisor, capped at the ceiling. The defensive
except branch of the source is unreachable once the divisor is nonzero. -/
def get_numbers_distance (num1 num2 max_ : ℚ) : ℚ :=
  if num1 = num2 then 0
  else
    if (num1 + num2) / max_ = 0 then max_
    else min max_ |(num1 - num2) / ((num1 + num2) / max_)|

/-- One element of `_numpy_div` of the source: `np.divide` writes `a / b`
where `b` is nonzero and keeps the fill value elsewhere, and the
subsequent assignment `result[a == b] = 0` overrides the entries whose
dividend equals their divisor with 0. -/
def numpy_div_elem (a b replace_inf : ℚ) : ℚ :=
  if a = b then 0
  else if b = 0 then replace_inf
  else a / b

/-- One element of `np.clip(x, lo, hi)`. -/
def npClip (x lo hi : ℚ) : ℚ := min (max x lo) hi

/-- One element of `_get_numpy_array_distance` of the source: divide the
elementwise difference by the elementwise divisor through `_numpy_div`
with the ceiling as fill value, then clip the absolute value to the
interval from 0 to the ceiling. -/
def get_numpy_array_distance_elem (num1 num2 max_ : ℚ) : ℚ :=
  npClip |numpy_div_elem (num1 - num2) ((num1 + num2) / max_) max_| 0 max_

/-- The batched `_get_numpy_array_distance` over two equal-length numeric
sequences, elementwise. -/
def get_numpy_array_distance (num1 num2 : List ℚ) (max_ : ℚ) : List ℚ :=
  List.zipWith (fun a b => get_numpy_array_distance_elem a b max_) num1 num2

/-- The inputs of the distance engine as far as the numeric category
dispatch inspects them: plain numbers, the date and time family (with the
fields that the per-category conversions of the source read: the posix
timestamp, the ordinal day count, the total seconds), and any other value,
identified by the id of its object graph. A datetime also carries its
ordinal because under isinstance a datetime is also a date. -/
inductive DDVal where
  | num (q : ℚ)
  | datetime (timestamp : ℚ) (ordinal : ℤ)
  | date (ordinal : ℤ)
  | timedelta (total_seconds : ℚ)
  | time (seconds : ℚ)
  | other (objId : Nat)
deriving DecidableEq, Repr

/-- Category test for plain numbers. -/
def isNumberV : DDVal → Bool
  | DDVal.num _ => true
  | _ => false

/-- Category test for datetimes. -/
def isDatetimeV : DDVal → Bool
  | DDVal.datetime _ _ => true
  | _ => false

/-- Category test for dates; a datetime is also a date, as under
isinstance in the source. -/
def isDateV : DDVal → Bool
  | DDVal.date _ => true
  | DDVal.datetime _ _ => true
  | _ => false

/-- Category test for timedeltas. -/
def isTimedeltaV : DDVal → Bool
  | DDVal.timedelta _ => true
  | _ => false

/-- Category test for clock times. -/
def isTimeV : DDVal → Bool
  | DDVal.time _ => true
  | _ => false

/-- The numeric value of a plain number. -/
def numValV : DDVal → ℚ
  | DDVal.num q => q
  | _ => 0

/-- The posix timestamp read by `_get_datetime_distance`. -/
def timestampV : DDVal → ℚ
  | DDVal.datetime ts _ => ts
  | _ => 0

/-- The ordinal day count read by `_get_date_distance`. -/
def toordinalV : DDVal → ℤ
  | DDVal.datetime _ o => o
  | DDVal.date o => o
  | _ => 0

/-- The total seconds read by `_get_timedelta_distance`. -/
def totalSecondsV : DDVal → ℚ
  | DDVal.timedelta s => s
  | _ => 0

/-- The seconds since midnight read by `_get_time_distance`. -/
def timeSecondsV : DDVal → ℚ
  | DDVal.time s => s
  | _ => 0

/-- The per-category distance functions of the source, each a conversion
followed by the scalar number distance. -/
def get_datetime_distance (d1 d2 : DDVal) (max_ : ℚ) : ℚ :=
  get_numbers_distance (timestampV d1) (timestampV d2) max_

/-- Date distance: compare the ordinal day counts. -/
def get_date_distance (d1 d2 : DDVal) (max_ : ℚ) : ℚ :=
  get_numbers_distance (toordinalV d1) (toordinalV d2) max_

/-- Timedelta distance: compare the total seconds. -/
def get_timedelta_distance (d1 d2 : DDVal) (max_ : ℚ) : ℚ :=
  get_numbers_distance (totalSecondsV d1) (totalSecondsV d2) max_

/-- Clock time distance: compare the seconds since midnight. -/
def get_time_distance (d1 d2 : DDVal) (max_ : ℚ) : ℚ :=
  get_numbers_distance (timeSecondsV d1) (timeSecondsV d2) max_

/-- The dispatch `get_numeric_types_distance` of the source: walk the
category table in its fixed order (numbers, datetime, date, timedelta,
time) and return the distance of the first category containing both
inputs; `none` models the `not_found` sentinel. -/
def get_numeric_types_distance (num1 num2 : DDVal) (max_ : ℚ) : Option ℚ :=
  if isNumberV num1 && isNumberV num2 then
    some (get_numbers_distance (numValV num1) (numValV num2) max_)
  else if isDatetimeV num1 && isDatetimeV num2 then
    some (get_datetime_distance num1 num2 max_)
  else if isDateV num1 && isDateV num2 then
    some (get_date_distance num1 num2 max_)
  else if isTimedeltaV num1 && isTimedeltaV num2 then
    some (get_timedelta_distance num1 num2 max_)
  else if isTimeV num1 && isTimeV num2 then
    some (get_time_distance num1 num2 max_)
  else none

/-- The error message raised when the hash cache has been purged. -/
def DISTANCE_CALCS_NEEDS_CACHE : String :=
  "Distance calculation can not happen once the cache is purged. Try with _cache=\x27keep\x27"

/-- The state of one diff session as read by the rough distance
computation: the two compared values, the ceiling for pairs, the
structural report already obtained from the external diff engine (either
the session itself in delta view or `_to_delta_dict` with repetition
reporting suppressed), given as an object graph with a root identity, and
the DeepHash length cache. Modelled from the spec: the cache (absent when
the session purged it, which the source detects through hasattr) maps a
value to its memoized rough length, and `hashValue` stands for the length
that the external DeepHash collaborator computes and memoizes on a cache
miss. -/
structure DistanceMixin where
  t1 : DDVal
  t2 : DDVal
  cutoff_distance_for_pairs : ℚ
  reportHeap : List PyObj
  reportRoot : Nat
  hashes : Option (DDVal → Option ℚ)
  hashValue : DDVal → ℚ

/-- The method `__get_item_rough_length` of the source: fail with the
cache-purged error when the hashes attribute is gone, otherwise read the
memoized rough length, populating it through the external DeepHash
collaborator on a miss. -/
def get_item_rough_length (s : DistanceMixin) (item : DDVal) : Except String ℚ :=
  match s.hashes with
  | none => Except.error DISTANCE_CALCS_NEEDS_CACHE
  | some cache =>
    match cache item with
    | some len => Except.ok len
    | none => Except.ok (s.hashValue item)

/-- The method `_get_rough_distance` of the source: return the numeric
category distance when the dispatch applies; otherwise measure the
structural report, return 0 for an empty measure, and otherwise divide the
measure by the sum of the rough lengths of the two inputs, looking the
lengths up one after the other so that a purged cache surfaces as the
error of the first lookup. -/
def get_rough_distance (s : DistanceMixin) : Except String ℚ :=
  match get_numeric_types_distance s.t1 s.t2 s.cutoff_distance_for_pairs with
  | some d => Except.ok d
  | none =>
    if get_item_length s.reportHeap s.reportRoot = 0 then Except.ok 0
    else
      match get_item_rough_length s s.t1, get_item_rough_length s s.t2 with
      | Except.ok t1_len, Except.ok t2_len =>
          Except.ok ((get_item_length s.reportHeap s.reportRoot : ℚ) / (t1_len + t2_len))
      | Except.error e, _ => Except.error e
      | Except.ok _, Except.error e => Except.error e

/-- The three observable outcomes of the user comparator: a truthy value,
a falsy value, or the CannotCompare signal. -/
inductive CompareResult where
  | close
  | notClose
  | cannotCompare
deriving DecidableEq, Repr

/-- Python truthiness of `self.math_epsilon or default`: an unset epsilon
and an epsilon of exactly 0 both yield the default. -/
def pyOrQ (eps : Option ℚ) (default : ℚ) : ℚ :=
  match eps with
  | none => default
  | some e => if e = 0 then default else e

/-- The body of the nested loop of
`_precalculate_distance_by_custom_compare_func` for one (added, removed)
hash pair: no entry when the comparator raises CannotCompare, the
configured epsilon (with 1e-6 as fallback under Python truthiness) for a
truthy verdict, and 1 for a falsy verdict, keyed by the composite
hash-pair string. -/
def pairEntry {α : Type} (cf : α → α → CompareResult) (math_epsilon : Option ℚ)
    (t1_hashtable t2_hashtable : String → α) (added_hash removed_hash : String) :
    Option (String × ℚ) :=
  match cf (t2_hashtable added_hash) (t1_hashtable removed_hash) with
  | CompareResult.cannotCompare => none
  | CompareResult.close =>
      some (added_hash ++ "--" ++ removed_hash, pyOrQ math_epsilon (1 / 1000000))
  | CompareResult.notClose => some (added_hash ++ "--" ++ removed_hash, 1)

/-- The method `_precalculate_distance_by_custom_compare_func` of the
source: the outer loop runs over the added hashes, the inner loop over the
removed hashes, and every judged pair inserts its entry. The Python dict
is modelled as the list of insertions in loop order. -/
def precalculate_distance_by_custom_compare_func {α : Type}
    (cf : α → α → CompareResult) (math_epsilon : Option ℚ)
    (hashes_added hashes_removed : List String)
    (t1_hashtable t2_hashtable : String → α) : List (String × ℚ) :=
  hashes_added.flatMap (fun added_hash =>
    hashes_removed.filterMap (fun removed_hash =>
      pairEntry cf math_epsilon t1_hashtable t2_hashtable added_hash removed_hash))

/-- The end-to-end example of the spec: two non-numeric inputs (lists)
whose only difference is one numeric element changed from 1 to 2, with a
cached rough length of 10 each; the delta report holds the one changed
value. -/
def session1 : DistanceMixin where
  t1 := DDVal.other 0
  t2 := DDVal.other 1
  cutoff_distance_for_pairs := 1
  reportHeap := [PyObj.mapping [(PyKey.s "values_changed", 1)],
    PyObj.mapping [(PyKey.s "root[3]", 2)],
    PyObj.mapping [(PyKey.s "new_value", 3)],
    PyObj.num 2]
  reportRoot := 0
  hashes := some (fun v =>
    if v = DDVal.other 0 then some 10
    else if v = DDVal.other 1 then some 10
    else none)
  hashValue := fun _ => 0

/-- A session whose cache has been purged, with non-numeric inputs and a
nonempty report: the rough distance must reach the length lookup. -/
def session6 : DistanceMixin where
  t1 := DDVal.other 0
  t2 := DDVal.other 1
  cutoff_distance_for_pairs := 1
  reportHeap := [PyObj.iter [1, 2], PyObj.num 3, PyObj.str "x"]
  reportRoot := 0
  hashes := none
  hashValue := fun _ => 0

/-- A session whose cache has been purged but whose inputs share the
plain-number category. -/
def session9 : DistanceMixin where
  t1 := DDVal.num 1
  t2 := DDVal.num 2
  cutoff_distance_for_pairs := 1
  reportHeap := [PyObj.mapping []]
  reportRoot := 0
  hashes := none
  hashValue := fun _ => 0

/-- A session whose cache has been purged, with non-numeric inputs and an
empty report. -/
def session9b : DistanceMixin where
  t1 := DDVal.other 0
  t2 := DDVal.other 1
  cutoff_distance_for_pairs := 1
  reportHeap := [PyObj.mapping []]
  reportRoot := 0
  hashes := none
  hashValue := fun _ => 0

/-- A session comparing a number against a non-number (a type change):
the report carries the old type, new type, old value and new value, four
operations, while each input has rough length 1, so the structural ratio
is 2 and exceeds the ceiling of 1. -/
def sessionC4 : DistanceMixin where
  t1 := DDVal.num 1
  t2 := DDVal.other 7
  cutoff_distance_for_pairs := 1
  reportHeap := [PyObj.mapping [(PyKey.s "type_changes", 1)],
    PyObj.mapping [(PyKey.s "root", 2)],
    PyObj.mapping [(PyKey.s "old_type", 3), (PyKey.s "new_type", 4),
      (PyKey.s "old_value", 5), (PyKey.s "new_value", 6)],
    PyObj.cls, PyObj.cls, PyObj.num 1, PyObj.str "x"]
  reportRoot := 0
  hashes := some (fun v =>
    if v = DDVal.num 1 then some 1
    else if v = DDVal.other 7 then some 1
    else none)
  hashValue := fun _ => 0

/-- A report whose items-added-at-indexes section maps two positions to
the same object identity 3, an iterable of two numbers. -/
def dedupReportShared : List PyObj :=
  [PyObj.mapping [(PyKey.s "iterable_items_added_at_indexes", 1)],
   PyObj.mapping [(PyKey.s "root", 2)],
   PyObj.mapping [(PyKey.n 0, 3), (PyKey.n 5, 3)],
   PyObj.iter [4, 5], PyObj.num 1, PyObj.num 2]

/-- The same report shape with the two positions mapped to two distinct
object identities of equal content. -/
def dedupReportDistinct : List PyObj :=
  [PyObj.mapping [(PyKey.s "iterable_items_added_at_indexes", 1)],
   PyObj.mapping [(PyKey.s "root", 2)],
   PyObj.mapping [(PyKey.n 0, 3), (PyKey.n 5, 6)],
   PyObj.iter [4, 5], PyObj.num 1, PyObj.num 2,
   PyObj.iter [7, 8], PyObj.num 1, PyObj.num 2]

/-- Unfolding of the rough distance when the numeric dispatch applies:
its value is returned immediately. -/
theorem get_rough_distance_of_dispatch (s : DistanceMixin) (d : ℚ)
    (h : get_numeric_types_distance s.t1 s.t2 s.cutoff_distance_for_pairs = some d) :
    get_rough_distance s = Except.ok d := by
  unfold get_rough_distance
  rw [h]

/-- Unfolding of the rough distance when the dispatch does not apply and
the report measures 0. -/
theorem get_rough_distance_of_zero (s : DistanceMixin)
    (h : get_numeric_types_distance s.t1 s.t2 s.cutoff_distance_for_pairs = none)
    (h0 : get_item_length s.reportHeap s.reportRoot = 0) :
    get_rough_distance s = Except.ok 0 := by
  unfold get_rough_distance
  rw [h]
  simp [h0]

/-- Unfolding of the rough distance on the structural path with both
rough lengths resolved. -/
theorem get_rough_distance_of_lengths (s : DistanceMixin) (l1 l2 : ℚ)
    (h : get_numeric_types_distance s.t1 s.t2 s.cutoff_distance_for_pairs = none)
    (h0 : get_item_length s.reportHeap s.reportRoot ≠ 0)
    (h1 : get_item_rough_length s s.t1 = Except.ok l1)
    (h2 : get_item_rough_length s s.t2 = Except.ok l2) :
    get_rough_distance s
      = Except.ok ((get_item_length s.reportHeap s.reportRoot : ℚ) / (l1 + l2)) := by
  unfold get_rough_distance
  rw [h, if_neg h0, h1, h2]

/-- A purged cache makes the rough length lookup fail with the
cache-purged message. -/
theorem get_item_rough_length_of_purged (s : DistanceMixin) (item : DDVal)
    (h : s.hashes = none) :
    get_item_rough_length s item = Except.error DISTANCE_CALCS_NEEDS_CACHE := by
  unfold get_item_rough_length
  rw [h]

/-- Unfolding of the rough distance on the structural path when the cache
is purged: the error of the first lookup surfaces. -/
theorem get_rough_distance_of_purged (s : DistanceMixin)
    (h : get_numeric_types_distance s.t1 s.t2 s.cutoff_distance_for_pairs = none)
    (h0 : get_item_length s.reportHeap s.reportRoot ≠ 0)
    (hp : s.hashes = none) :
    get_rough_distance s = Except.error DISTANCE_CALCS_NEEDS_CACHE := by
  unfold get_rough_distance
  rw [h, if_neg h0, get_item_rough_length_of_purged s s.t1 hp]

/-- The scalar number distance is nonnegative for a positive ceiling. -/
theorem get_numbers_distance_nonneg (a b max_ : ℚ) (h : 0 < max_) :
    0 ≤ get_numbers_distance a b max_ := by
  unfold get_numbers_distance
  by_cases hab : a = b
  · simp [hab]
  · rw [if_neg hab]
    by_cases hd : (a + b) / max_ = 0
    · simp [hd, h.le]
    · rw [if_neg hd]
      exact le_min h.le (abs_nonneg _)

/-- The scalar number distance never exceeds a positive ceiling. -/
theorem get_numbers_distance_le (a b max_ : ℚ) (h : 0 < max_) :
    get_numbers_distance a b max_ ≤ max_ := by
  unfold get_numbers_distance
  by_cases hab : a = b
  · simp [hab, h.le]
  · rw [if_neg hab]
    by_cases hd : (a + b) / max_ = 0
    · simp [hd]
    · rw [if_neg hd]
      exact min_le_left _ _

/-- Every value produced by the numeric dispatch is a scalar number
distance at the same ceiling. -/
theorem get_numeric_types_distance_eq_numbers (num1 num2 : DDVal) (max_ d : ℚ)
    (h : get_numeric_types_distance num1 num2 max_ = some d) :
    ∃ x y : ℚ, d = get_numbers_distance x y max_ := by
  unfold get_numeric_types_distance at h
  split at h
  · exact ⟨numValV num1, numValV num2, (Option.some.inj h).symm⟩
  · split at h
    · exact ⟨timestampV num1, timestampV num2, (Option.some.inj h).symm⟩
    · split at h
      · exact ⟨(toordinalV num1 : ℚ), (toordinalV num2 : ℚ), (Option.some.inj h).symm⟩
      · split at h
        · exact ⟨totalSecondsV num1, totalSecondsV num2, (Option.some.inj h).symm⟩
        · split at h
          · exact ⟨timeSecondsV num1, timeSecondsV num2, (Option.some.inj h).symm⟩
          · exact absurd h (by simp)

/-- Every entry of the comparator-driven table stems from one judged
(added, removed) pair. -/
theorem precalculate_mem {α : Type} (cf : α → α → CompareResult) (eps : Option ℚ)
    (added removed : List String) (t1h t2h : String → α) (e : String × ℚ)
    (h : e ∈ precalculate_distance_by_custom_compare_func cf eps added removed t1h t2h) :
    ∃ ah ∈ added, ∃ rh ∈ removed, pairEntry cf eps t1h t2h ah rh = some e := by
  unfold precalculate_distance_by_custom_compare_func at h
  obtain ⟨ah, hah, h2⟩ := List.mem_flatMap.mp h
  obtain ⟨rh, hrh, h3⟩ := List.mem_filterMap.mp h2
  exact ⟨ah, hah, rh, hrh, h3⟩

/-- Every recorded pair entry carries either the effective epsilon or 1. -/
theorem pairEntry_value {α : Type} (cf : α → α → CompareResult) (eps : Option ℚ)
    (t1h t2h : String → α) (ah rh : String) (e : String × ℚ)
    (h : pairEntry cf eps t1h t2h ah rh = some e) :
    e.2 = pyOrQ eps (1 / 1000000) ∨ e.2 = 1 := by
  unfold pairEntry at h
  split at h
  · exact absurd h (by simp)
  · left
    rw [← Option.some.inj h]
  · right
    rw [← Option.some.inj h]

/-- The effective epsilon is positive whenever the configured epsilon is
nonnegative or unset. -/
theorem pyOrQ_pos (eps : Option ℚ) (h : ∀ q, eps = some q → 0 ≤ q) :
    0 < pyOrQ eps (1 / 1000000) := by
  cases eps with
  | none => norm_num [pyOrQ]
  | some q =>
      have hq := h q rfl
      by_cases h0 : q = 0
      · simp only [pyOrQ, h0, if_pos rfl]
        norm_num
      · simp only [pyOrQ, if_neg h0]
        exact lt_of_le_of_ne hq (Ne.symm h0)

/-- The contribution of a child depends on the recursive callback only
through its value on children not yet visited. -/
theorem childContribution_congr (F G : Nat → List Nat → Nat) (P : List Nat)
    (h : ∀ v : Nat, v ∉ P → F v (v :: P) = G v (v :: P)) (v : Nat) :
    childContribution F P v = childContribution G P v := by
  unfold childContribution
  by_cases hv : v ∈ P
  · simp [hv]
  · simp [hv, h v hv]

/-- Congruence of the deduplicated section count in the callback. -/
theorem specialInner_congr (F G : Nat → List Nat → Nat) (P : List Nat) (node : PyObj)
    (h : ∀ v : Nat, v ∉ P → F v (v :: P) = G v (v :: P)) :
    specialInner F P node = specialInner G P node := by
  cases node with
  | mapping kvs =>
      simp only [specialInner]
      congr 1
      apply List.map_congr_left
      intro e _
      by_cases hk : keySkip e.1 <;> simp [hk, childContribution_congr F G P h]
  | num q => rfl
  | str s => rfl
  | iter elems => rfl
  | cls => rfl
  | obj attrs => rfl

/-- Congruence of the special-section count in the callback. -/
theorem specialStep_congr (heap : List PyObj) (F G : Nat → List Nat → Nat) (P : List Nat)
    (node : PyObj) (h : ∀ v : Nat, v ∉ P → F v (v :: P) = G v (v :: P)) :
    specialStep heap F P node = specialStep heap G P node := by
  cases node with
  | mapping paths =>
      simp only [specialStep]
      congr 1
      apply List.map_congr_left
      intro pe _
      by_cases hk : keySkip pe.1 <;> simp [hk, specialInner_congr F G P _ h]
  | num q => rfl
  | str s => rfl
  | iter elems => rfl
  | cls => rfl
  | obj attrs => rfl

/-- Congruence of one unfolding of the size counter in the callback. -/
theorem nodeStep_congr (heap : List PyObj) (F G : Nat → List Nat → Nat) (P : List Nat)
    (node : PyObj) (h : ∀ v : Nat, v ∉ P → F v (v :: P) = G v (v :: P)) :
    nodeStep heap F P node = nodeStep heap G P node := by
  cases node with
  | mapping entries =>
      simp only [nodeStep]
      congr 1
      apply List.map_congr_left
      intro kv _
      by_cases hs : isSpecialKey kv.1
      · simp [hs, specialStep_congr heap F G P _ h]
      · by_cases hk : keySkip kv.1 <;>
          simp [hs, hk, childContribution_congr F G P h]
  | num q => rfl
  | str s => rfl
  | iter elems =>
      simp only [nodeStep]
      congr 1
      apply List.map_congr_left
      intro v _
      exact childContribution_congr F G P h v
  | cls => rfl
  | obj attrs => rfl

/-- An identity outside the heap dereferences to an atomic node and
counts 1 under any positive fuel. -/
theorem getItemLengthF_out_of_range (heap : List PyObj) (fuel v : Nat) (P : List Nat)
    (h1 : 1 ≤ fuel) (h2 : heap.length ≤ v) :
    getItemLengthF heap fuel v P = 1 := by
  obtain ⟨m, rfl⟩ : ∃ m, fuel = m + 1 := ⟨fuel - 1, by omega⟩
  show nodeStep heap (getItemLengthF heap m) P (heapGet heap v) = 1
  rw [heapGet, List.getD_eq_default _ _ h2]
  rfl

/-- With nothing visited, every identity of the heap is unseen. -/
theorem unseen_nil (heap : List PyObj) : unseen heap [] = heap.length := by
  simp [unseen]

/-- Visiting an unseen identity of the heap decreases the measure. -/
theorem unseen_cons (heap : List PyObj) (v : Nat) (P : List Nat)
    (h1 : v < heap.length) (h2 : v ∉ P) :
    unseen heap (v :: P) + 1 = unseen heap P := by
  unfold unseen
  have hmem : v ∈ (Finset.range heap.length).filter (fun x => x ∉ P) := by
    simp [Finset.mem_filter, Finset.mem_range, h1, h2]
  have hset : (Finset.range heap.length).filter (fun x => x ∉ v :: P)
      = ((Finset.range heap.length).filter (fun x => x ∉ P)).erase v := by
    ext x
    simp only [Finset.mem_filter, Finset.mem_erase, Finset.mem_range, List.mem_cons]
    constructor
    · intro hx
      push_neg at hx
      exact ⟨hx.2.1, hx.1, hx.2.2⟩
    · intro hx
      refine ⟨hx.2.1, ?_⟩
      push_neg
      exact ⟨hx.1, hx.2.2⟩
  rw [hset, Finset.card_erase_of_mem hmem]
  have hpos : 0 < ((Finset.range heap.length).filter (fun x => x ∉ P)).card :=
    Finset.card_pos.mpr ⟨v, hmem⟩
  omega

/-- Fuel irrelevance: one more unit of fuel does not change the count
once the fuel exceeds the number of unseen identities plus one. This is
the termination argument of the guarded recursion of the source. -/
theorem getItemLengthF_mono (heap : List PyObj) :
    ∀ fuel i P, unseen heap P + 2 ≤ fuel →
      getItemLengthF heap fuel i P = getItemLengthF heap (fuel + 1) i P := by
  intro fuel
  induction fuel with
  | zero =>
      intro i P h
      omega
  | succ k ih =>
      intro i P h
      show nodeStep heap (getItemLengthF heap k) P (heapGet heap i)
          = nodeStep heap (getItemLengthF heap (k + 1)) P (heapGet heap i)
      apply nodeStep_congr
      intro v hv
      by_cases hr : v < heap.length
      · have hu := unseen_cons heap v P hr hv
        exact ih v (v :: P) (by omega)
      · rw [getItemLengthF_out_of_range heap k v (v :: P) (by omega) (by omega),
          getItemLengthF_out_of_range heap (k + 1) v (v :: P) (by omega) (by omega)]

/-- Stabilization: any fuel of at least the heap size plus two computes
the same count as the canonical one; the guarded recursion of the source
therefore terminates with this value on every object graph. -/
theorem getItemLengthF_stable (heap : List PyObj) (i : Nat) :
    ∀ fuel, heap.length + 2 ≤ fuel → getItemLengthF heap fuel i [] = get_item_length heap i := by
  have key : ∀ d : Nat, getItemLengthF heap (heap.length + 2 + d) i [] = get_item_length heap i := by
    intro d
    induction d with
    | zero => rfl
    | succ m ihm =>
        have hm := getItemLengthF_mono heap (heap.length + 2 + m) i []
          (by rw [unseen_nil]; omega)
        have hstep : getItemLengthF heap (heap.length + 2 + (m + 1)) i []
            = getItemLengthF heap (heap.length + 2 + m) i [] := hm.symm
        rw [hstep, ihm]
  intro fuel h
  obtain ⟨d, rfl⟩ : ∃ d, fuel = heap.length + 2 + d := ⟨fuel - (heap.length + 2), by omega⟩
  exact key d

/-- C1: the rough-distance estimator first tries the numeric-category
dispatch and returns its value immediately when it applies; otherwise it
computes the size of the structural report, returns 0 when that size is
0, and otherwise returns size divided by the sum of the memoized rough
lengths of the two inputs; for two length-10 lists differing only in one
numeric element changed from 1 to 2, with cached rough length 10 each and
diff size 1, the result is 1/20 = 0.05. -/
theorem claim1_rough_distance :
    (∀ (s : DistanceMixin) (d : ℚ),
        get_numeric_types_distance s.t1 s.t2 s.cutoff_distance_for_pairs = some d →
        get_rough_distance s = Except.ok d)
    ∧ (∀ s : DistanceMixin,
        get_numeric_types_distance s.t1 s.t2 s.cutoff_distance_for_pairs = none →
        get_item_length s.reportHeap s.reportRoot = 0 →
        get_rough_distance s = Except.ok 0)
    ∧ (∀ (s : DistanceMixin) (l1 l2 : ℚ),
        get_numeric_types_distance s.t1 s.t2 s.cutoff_distance_for_pairs = none →
        get_item_length s.reportHeap s.reportRoot ≠ 0 →
        get_item_rough_length s s.t1 = Except.ok l1 →
        get_item_rough_length s s.t2 = Except.ok l2 →
        get_rough_distance s
          = Except.ok ((get_item_length s.reportHeap s.reportRoot : ℚ) / (l1 + l2)))
    ∧ get_item_length session1.reportHeap session1.reportRoot = 1
    ∧ get_rough_distance session1 = Except.ok (1 / 20) := by
  have h1 : get_item_length session1.reportHeap session1.reportRoot = 1 := by rfl
  refine ⟨get_rough_distance_of_dispatch, get_rough_distance_of_zero,
    get_rough_distance_of_lengths, h1, ?_⟩
  have h := get_rough_distance_of_lengths session1 10 10 (by rfl)
    (by simp [h1]) (by rfl) (by rfl)
  rw [h, h1]
  norm_num

/-- Closed instance of C1 at the end-to-end session, discharging the
hypotheses of the structural branch there. -/
theorem claim1_rough_distance_witness :
    get_rough_distance session1
      = Except.ok ((get_item_length session1.reportHeap session1.reportRoot : ℚ) / (10 + 10)) :=
  claim1_rough_distance.2.2.1 session1 10 10 (by rfl)
    (by simp [show get_item_length session1.reportHeap session1.reportRoot = 1 from by rfl])
    (by rfl) (by rfl)

/-- C5: the size counter terminates with a finite size on every value,
self-referential containers included: the fuel-indexed unfolding of the
guarded recursion stabilizes once the fuel exceeds the number of object
identities plus one; a child whose identity is already in the visited set
of its branch contributes 0; the visited set is threaded per branch, so an
object reachable through two independent branches is counted once per
branch; and a container holding itself yields a finite count with the
cyclic back reference contributing 0. -/
theorem claim5_termination :
    (∀ (heap : List PyObj) (i fuel : Nat), heap.length + 2 ≤ fuel →
        getItemLengthF heap fuel i [] = get_item_length heap i)
    ∧ (∀ (heap : List PyObj) (fuel : Nat) (P : List Nat) (v : Nat), v ∈ P →
        childContribution (getItemLengthF heap fuel) P v = 0)
    ∧ get_item_length [PyObj.iter [0, 1], PyObj.num 5] 0 = 2
    ∧ get_item_length [PyObj.iter [1, 1], PyObj.num 7] 0 = 2 := by
  refine ⟨fun heap i fuel h => getItemLengthF_stable heap i fuel h,
    fun heap fuel P v hv => ?_, by rfl, by rfl⟩
  simp [childContribution, hv]

/-- Closed instance of C5: stabilization at a concrete cyclic heap with
surplus fuel, and a concrete visited child contributing 0. -/
theorem claim5_termination_witness :
    getItemLengthF [PyObj.iter [0, 1], PyObj.num 5] 9 0 []
      = get_item_length [PyObj.iter [0, 1], PyObj.num 5] 0
    ∧ childContribution (getItemLengthF [PyObj.iter [0, 1], PyObj.num 5] 3) [0] 0 = 0 :=
  ⟨claim5_termination.1 [PyObj.iter [0, 1], PyObj.num 5] 0 9 (by norm_num),
   claim5_termination.2.1 [PyObj.iter [0, 1], PyObj.num 5] 3 [0] 0 (by simp)⟩

/-- C6: once the cache has been purged, a rough-distance computation that
reaches the structural path with a nonzero diff size fails with the
precondition error instructing that the cache must be retained. -/
theorem claim6_cache_purged_error :
    ∀ s : DistanceMixin, s.hashes = none →
      get_numeric_types_distance s.t1 s.t2 s.cutoff_distance_for_pairs = none →
      get_item_length s.reportHeap s.reportRoot ≠ 0 →
      get_rough_distance s = Except.error DISTANCE_CALCS_NEEDS_CACHE :=
  fun s hp h h0 => get_rough_distance_of_purged s h h0 hp

/-- Closed instance of C6 at a concrete purged session. -/
theorem claim6_cache_purged_error_witness :
    get_rough_distance session6 = Except.error DISTANCE_CALCS_NEEDS_CACHE :=
  claim6_cache_purged_error session6 rfl (by rfl)
    (by simp [show get_item_length session6.reportHeap session6.reportRoot = 2 from by rfl])

/-- C8: under the two recognized index-section report keys the
position-to-item mapping is deduplicated by item identity before
recursion: the dedup keeps the first entry per identity, and a section
mapping two positions to the same object of size 2 counts it once (total
2), while the same shape with two distinct objects counts both (total
4). -/
theorem claim8_dedup :
    (∀ (k1 k2 : PyKey) (v : Nat), dedupById [] [(k1, v), (k2, v)] = [(k1, v)])
    ∧ get_item_length dedupReportShared 0 = 2
    ∧ get_item_length dedupReportDistinct 0 = 4 := by
  refine ⟨fun k1 k2 v => ?_, by rfl, by rfl⟩
  simp [dedupById]

/-- C9: with the cache purged, the rough distance still succeeds whenever
the inputs share a numeric-like category or the structural report has
size 0: the cache is consulted only after both opportunities pass. -/
theorem claim9_cache_untouched :
    ∀ s : DistanceMixin, s.hashes = none →
      (∀ d : ℚ,
          get_numeric_types_distance s.t1 s.t2 s.cutoff_distance_for_pairs = some d →
          get_rough_distance s = Except.ok d)
      ∧ (get_numeric_types_distance s.t1 s.t2 s.cutoff_distance_for_pairs = none →
          get_item_length s.reportHeap s.reportRoot = 0 →
          get_rough_distance s = Except.ok 0) :=
  fun s _ => ⟨fun d h => get_rough_distance_of_dispatch s d h,
    fun h h0 => get_rough_distance_of_zero s h h0⟩

/-- Closed instance of C9 at two concrete purged sessions: a numeric pair
and an empty report both produce a value, not an error. -/
theorem claim9_cache_untouched_witness :
    get_rough_distance session9 = Except.ok (get_numbers_distance 1 2 1)
    ∧ get_rough_distance session9b = Except.ok 0 :=
  ⟨(claim9_cache_untouched session9 rfl).1 (get_numbers_distance 1 2 1) (by rfl),
   (claim9_cache_untouched session9b rfl).2 (by rfl) (by rfl)⟩

/-- C2 counterexample: at a = -1, b = -2, max = 1 the divisor is
negative, the code returns the absolute value of the quotient, 1/3, while
the formula of the claim, the ceiling capped against the absolute
difference divided by the signed divisor, evaluates to -1/3. -/
theorem claim2_counterexample :
    get_numbers_distance (-1) (-2) 1 = 1 / 3
    ∧ min (1 : ℚ) (|(-1 : ℚ) - (-2)| / (((-1 : ℚ) + (-2)) / 1)) = -(1 / 3)
    ∧ ((1 : ℚ) / 3) ≠ -(1 / 3) := by
  refine ⟨?_, by norm_num, by norm_num⟩
  norm_num [get_numbers_distance]
  rw [abs_of_nonneg (by norm_num), min_eq_right (by norm_num)]

/-- C2 as amended: the scalar distance returns 0 for equal operands
(checked before any arithmetic, including both operands 0), the ceiling
when the divisor vanishes, and otherwise the ceiling capped against the
absolute value of the quotient of the difference by the divisor, with
distance(5, -5, 1) = 1 and distance(1, 2, 1) = 1/3. -/
theorem claim2_numbers_distance :
    ∀ a b max_ : ℚ,
      (a = b → get_numbers_distance a b max_ = 0)
      ∧ (a ≠ b → (a + b) / max_ = 0 → get_numbers_distance a b max_ = max_)
      ∧ (a ≠ b → (a + b) / max_ ≠ 0 →
          get_numbers_distance a b max_ = min max_ |(a - b) / ((a + b) / max_)|)
      ∧ get_numbers_distance 5 (-5) 1 = 1
      ∧ get_numbers_distance 1 2 1 = 1 / 3 := by
  intro a b max_
  refine ⟨fun h => by simp [get_numbers_distance, h],
    fun h hd => by simp [get_numbers_distance, h, hd],
    fun h hd => by simp [get_numbers_distance, h, hd],
    by norm_num [get_numbers_distance], ?_⟩
  norm_num [get_numbers_distance]
  rw [abs_of_nonneg (by norm_num), min_eq_right (by norm_num)]

/-- Closed instance of C2 as amended, discharging each hypothesis at
concrete operands. -/
theorem claim2_numbers_distance_witness :
    get_numbers_distance 2 2 1 = 0
    ∧ get_numbers_distance 5 (-5) 1 = 1
    ∧ get_numbers_distance 1 2 1 = min 1 |((1 : ℚ) - 2) / (((1 : ℚ) + 2) / 1)| :=
  ⟨(claim2_numbers_distance 2 2 1).1 rfl,
   (claim2_numbers_distance 5 (-5) 1).2.1 (by norm_num) (by norm_num),
   (claim2_numbers_distance 1 2 1).2.2.1 (by norm_num) (by norm_num)⟩

/-- C3: the vectorized distance diverges from the scalar distance at
num1 = 3, num2 = 0, max = 1: the scalar function returns 1, while the
vectorized one returns 0 because the zero override of the batched divide
fires wherever the dividend (num1 - num2) equals the divisor, not
wherever num1 equals num2. -/
theorem claim3_numpy_scalar_divergence :
    get_numbers_distance 3 0 1 = 1
    ∧ get_numpy_array_distance_elem 3 0 1 = 0
    ∧ get_numpy_array_distance [3] [0] 1 = [0]
    ∧ (1 : ℚ) ≠ 0 := by
  have h2 : get_numpy_array_distance_elem 3 0 1 = 0 := by
    norm_num [get_numpy_array_distance_elem, numpy_div_elem, npClip]
  refine ⟨?_, h2, ?_, by norm_num⟩
  · norm_num [get_numbers_distance]
  · simp [get_numpy_array_distance, h2]

/-- C4 counterexample: a session comparing a number against a string (a
type change) has a report of size 4 and rough lengths 1 and 1, so the
rough distance returned to the caller is 2, above the ceiling 1 of the
session. -/
theorem claim4_counterexample :
    get_rough_distance sessionC4 = Except.ok 2
    ∧ sessionC4.cutoff_distance_for_pairs = 1
    ∧ ¬ ((2 : ℚ) ≤ 1) := by
  refine ⟨?_, by rfl, by norm_num⟩
  have h1 : get_item_length sessionC4.reportHeap sessionC4.reportRoot = 4 := by rfl
  have h := get_rough_distance_of_lengths sessionC4 1 1 (by rfl)
    (by simp [h1]) (by rfl) (by rfl)
  rw [h, h1]
  norm_num

/-- C4 as amended: the scalar distance and every vectorized entry lie in
the interval from 0 to the ceiling (for a positive, respectively
nonnegative, ceiling); the rough distance lies in that interval whenever
the numeric dispatch applies, and is 0 when the report is empty; on the
structural path it is the nonnegative ratio of the diff size over the sum
of nonnegative rough lengths, which the code does not cap at the ceiling;
and every comparator-driven entry is the effective epsilon or 1, lying in
the interval from 0 to 1 whenever the configured epsilon does. -/
theorem claim4_bounds :
    (∀ a b max_ : ℚ, 0 < max_ →
        0 ≤ get_numbers_distance a b max_ ∧ get_numbers_distance a b max_ ≤ max_)
    ∧ (∀ a b max_ : ℚ, 0 ≤ max_ →
        0 ≤ get_numpy_array_distance_elem a b max_
        ∧ get_numpy_array_distance_elem a b max_ ≤ max_)
    ∧ (∀ (s : DistanceMixin) (d : ℚ), 0 < s.cutoff_distance_for_pairs →
        get_numeric_types_distance s.t1 s.t2 s.cutoff_distance_for_pairs = some d →
        get_rough_distance s = Except.ok d ∧ 0 ≤ d ∧ d ≤ s.cutoff_distance_for_pairs)
    ∧ (∀ s : DistanceMixin,
        get_numeric_types_distance s.t1 s.t2 s.cutoff_distance_for_pairs = none →
        get_item_length s.reportHeap s.reportRoot = 0 →
        get_rough_distance s = Except.ok 0)
    ∧ (∀ (s : DistanceMixin) (l1 l2 : ℚ),
        get_numeric_types_distance s.t1 s.t2 s.cutoff_distance_for_pairs = none →
        get_item_length s.reportHeap s.reportRoot ≠ 0 →
        get_item_rough_length s s.t1 = Except.ok l1 →
        get_item_rough_length s s.t2 = Except.ok l2 →
        0 ≤ l1 → 0 ≤ l2 →
        get_rough_distance s
          = Except.ok ((get_item_length s.reportHeap s.reportRoot : ℚ) / (l1 + l2))
        ∧ 0 ≤ ((get_item_length s.reportHeap s.reportRoot : ℚ) / (l1 + l2)))
    ∧ (∀ (α : Type) (cf : α → α → CompareResult) (eps : Option ℚ)
        (added removed : List String) (t1h t2h : String → α) (e : String × ℚ),
        e ∈ precalculate_distance_by_custom_compare_func cf eps added removed t1h t2h →
        (∀ q, eps = some q → 0 ≤ q ∧ q ≤ 1) →
        0 ≤ e.2 ∧ e.2 ≤ 1) := by
  refine ⟨fun a b max_ h => ⟨get_numbers_distance_nonneg a b max_ h,
      get_numbers_distance_le a b max_ h⟩,
    fun a b max_ h => ?_, fun s d hc h => ?_, get_rough_distance_of_zero,
    fun s l1 l2 h h0 h1 h2 hl1 hl2 => ?_, fun α cf eps added removed t1h t2h e he heps => ?_⟩
  · unfold get_numpy_array_distance_elem npClip
    exact ⟨le_min (le_max_right _ _) h, min_le_right _ _⟩
  · obtain ⟨x, y, rfl⟩ := get_numeric_types_distance_eq_numbers s.t1 s.t2 _ d h
    exact ⟨get_rough_distance_of_dispatch s _ h,
      get_numbers_distance_nonneg x y _ hc, get_numbers_distance_le x y _ hc⟩
  · exact ⟨get_rough_distance_of_lengths s l1 l2 h h0 h1 h2,
      div_nonneg (Nat.cast_nonneg _) (add_nonneg hl1 hl2)⟩
  · obtain ⟨ah, _, rh, _, hpair⟩ :=
      precalculate_mem cf eps added removed t1h t2h e he
    rcases pairEntry_value cf eps t1h t2h ah rh e hpair with hv | hv
    · rw [hv]
      cases eps with
      | none => norm_num [pyOrQ]
      | some q =>
          rcases heps q rfl with ⟨hq0, hq1⟩
          by_cases hz : q = 0
          · simp only [pyOrQ, hz, if_pos rfl]
            norm_num
          · simp only [pyOrQ, if_neg hz]
            exact ⟨hq0, hq1⟩
    · rw [hv]
      norm_num

/-- Closed instance of C4 as amended at concrete inputs, discharging the
bound hypotheses there. -/
theorem claim4_bounds_witness :
    (0 ≤ get_numbers_distance 1 2 1 ∧ get_numbers_distance 1 2 1 ≤ 1)
    ∧ (0 ≤ get_numpy_array_distance_elem 3 0 1 ∧ get_numpy_array_distance_elem 3 0 1 ≤ 1) :=
  ⟨claim4_bounds.1 1 2 1 (by norm_num), claim4_bounds.2.1 3 0 1 (by norm_num)⟩

/-- C7 counterexample: with a configured epsilon of -1 and a comparator
judging the single pair close, the recorded distance is -1, which is not
strictly positive. -/
theorem claim7_counterexample :
    precalculate_distance_by_custom_compare_func
      (fun _ _ : Unit => CompareResult.close) (some (-1)) ["h1"] ["h2"]
      (fun _ => ()) (fun _ => ())
      = [("h1--h2", -1)]
    ∧ ¬ (0 < (-1 : ℚ)) := by
  constructor
  · simp [precalculate_distance_by_custom_compare_func, pairEntry, pyOrQ]
  · norm_num

/-- C7 as amended: a declined pair records no entry; a close pair records
the effective epsilon, which is the configured epsilon when nonzero and
the default 1e-6 when the epsilon is unset or 0, and which is strictly
positive whenever the configured epsilon is nonnegative or unset; a
not-close pair records exactly 1, independent of any ceiling (the
computation takes none); and every entry of the table stems from one
judged pair. -/
theorem claim7_compare_table :
    ∀ (α : Type) (cf : α → α → CompareResult) (eps : Option ℚ)
      (added removed : List String) (t1h t2h : String → α),
      (∀ ah rh : String,
        (cf (t2h ah) (t1h rh) = CompareResult.cannotCompare →
            pairEntry cf eps t1h t2h ah rh = none)
        ∧ (cf (t2h ah) (t1h rh) = CompareResult.close →
            pairEntry cf eps t1h t2h ah rh
              = some (ah ++ "--" ++ rh, pyOrQ eps (1 / 1000000)))
        ∧ (cf (t2h ah) (t1h rh) = CompareResult.notClose →
            pairEntry cf eps t1h t2h ah rh = some (ah ++ "--" ++ rh, 1)))
      ∧ (∀ e ∈ precalculate_distance_by_custom_compare_func cf eps added removed t1h t2h,
          ∃ ah ∈ added, ∃ rh ∈ removed, pairEntry cf eps t1h t2h ah rh = some e)
      ∧ ((∀ q, eps = some q → 0 ≤ q) → 0 < pyOrQ eps (1 / 1000000)) := by
  intro α cf eps added removed t1h t2h
  exact ⟨fun ah rh => ⟨fun h => by simp [pairEntry, h],
      fun h => by simp [pairEntry, h], fun h => by simp [pairEntry, h]⟩,
    fun e he => precalculate_mem cf eps added removed t1h t2h e he,
    pyOrQ_pos eps⟩

/-- Closed instance of C7 as amended at concrete comparators, discharging
each hypothesis there. -/
theorem claim7_compare_table_witness :
    pairEntry (fun _ _ : Unit => CompareResult.notClose) none
      (fun _ => ()) (fun _ => ()) "a" "b" = some ("a" ++ "--" ++ "b", 1)
    ∧ pairEntry (fun _ _ : Unit => CompareResult.cannotCompare) none
      (fun _ => ()) (fun _ => ()) "a" "b" = none
    ∧ 0 < pyOrQ none (1 / 1000000) :=
  ⟨((claim7_compare_table Unit (fun _ _ => CompareResult.notClose) none [] []
      (fun _ => ()) (fun _ => ())).1 "a" "b").2.2 rfl,
   ((claim7_compare_table Unit (fun _ _ => CompareResult.cannotCompare) none [] []
      (fun _ => ()) (fun _ => ())).1 "a" "b").1 rfl,
   (claim7_compare_table Unit (fun _ _ => CompareResult.notClose) none [] []
      (fun _ => ()) (fun _ => ())).2.2 (fun q h => by cases h)⟩

/-- C10 counterexample: a configured epsilon of -2 yields a recorded
close distance of -2, so the recorded close distance is not strictly
positive for every possible epsilon configuration. -/
theorem claim10_counterexample :
    precalculate_distance_by_custom_compare_func
      (fun _ _ : Unit => CompareResult.close) (some (-2)) ["x"] ["y"]
      (fun _ => ()) (fun _ => ())
      = [("x--y", -2)]
    ∧ ¬ (0 < (-2 : ℚ)) := by
  constructor
  · simp [precalculate_distance_by_custom_compare_func, pairEntry, pyOrQ]
  · norm_num

/-- C10 as amended: a configured epsilon of exactly 0 is treated as unset
under Python truthiness, so a close pair then records the default 1e-6;
the recorded close distance is strictly positive for every configuration
whose epsilon is unset or nonnegative. -/
theorem claim10_zero_epsilon :
    (∀ (α : Type) (cf : α → α → CompareResult) (t1h t2h : String → α) (ah rh : String),
        cf (t2h ah) (t1h rh) = CompareResult.close →
        pairEntry cf (some 0) t1h t2h ah rh = some (ah ++ "--" ++ rh, 1 / 1000000))
    ∧ (∀ eps : Option ℚ, (∀ q, eps = some q → 0 ≤ q) → 0 < pyOrQ eps (1 / 1000000)) := by
  refine ⟨fun α cf t1h t2h ah rh h => ?_, pyOrQ_pos⟩
  simp [pairEntry, h, pyOrQ]

/-- Closed instance of C10 as amended, discharging each hypothesis at a
concrete comparator and epsilon. -/
theorem claim10_zero_epsilon_witness :
    pairEntry (fun _ _ : Unit => CompareResult.close) (some 0)
      (fun _ => ()) (fun _ => ()) "u" "v" = some ("u" ++ "--" ++ "v", 1 / 1000000)
    ∧ 0 < pyOrQ (some 3) (1 / 1000000) :=
  ⟨claim10_zero_epsilon.1 Unit (fun _ _ => CompareResult.close)
      (fun _ => ()) (fun _ => ()) "u" "v" rfl,
   claim10_zero_epsilon.2 (some 3)
      (fun q h => by injection h with h2; rw [← h2]; norm_num)⟩
